import Mathlib

/-!
Verification of the tank_dynamics PID controller and simulation orchestrator.

The development shallowly embeds the C++ sources of the repository over the
exact rationals `ℚ` (IEEE doubles abstracted to exact arithmetic):

* `std::clamp` from `<algorithm>` as `stdClamp`;
* `tank_sim::PIDController` (src/src/pid_controller.cpp together with the
  validating constructor variant of the same translation unit appearing in
  src/src/constants.h, lines 401-476);
* the `tank_sim::Simulator` constructor with its five validation steps and the
  placeholder bodies of `step`/`getTime`/`getState` exactly as they appear in
  the sources (the simulator implementation file, whose constructor is fully
  written but whose step and getter bodies are stubs).

State mutation is modelled by explicit state passing: a method that mutates
the controller returns the updated controller value.
-/

namespace TankSim

/-- `std::clamp(v, lo, hi)`: `v < lo ? lo : hi < v ? hi : v`. -/
def stdClamp (v lo hi : ℚ) : ℚ :=
  if v < lo then lo else if hi < v then hi else v

/-- `PIDController::Gains` (src/src/pid_controller.h): proportional gain `Kc`,
integral time constant `tau_I`, derivative time constant `tau_D`. -/
structure Gains where
  Kc : ℚ
  tau_I : ℚ
  tau_D : ℚ
deriving DecidableEq, Repr

/-- The fields of `tank_sim::PIDController` (src/src/pid_controller.h). -/
structure PIDController where
  gains : Gains
  bias : ℚ
  min_output : ℚ
  max_output : ℚ
  max_integral : ℚ
  integral_state : ℚ
deriving DecidableEq, Repr

/-- `PIDController::PIDController` with fail-fast validation
(src/src/constants.h lines 407-424): rejects `tau_I < 0`, `tau_D < 0`,
`min_output > max_output` and `max_integral < 0`, in that order, and otherwise
initialises `integral_state` to `0`. A thrown `std::invalid_argument` is
modelled as `Except.error` carrying the message. -/
def PIDController.make (gains : Gains) (bias min_output max_output max_integral : ℚ) :
    Except String PIDController :=
  if gains.tau_I < 0 then
    Except.error "Integral time constant (tau_I) cannot be negative"
  else if gains.tau_D < 0 then
    Except.error "Derivative time constant (tau_D) cannot be negative"
  else if min_output > max_output then
    Except.error "min_output must be <= max_output"
  else if max_integral < 0 then
    Except.error "max_integral must be non-negative"
  else
    Except.ok ⟨gains, bias, min_output, max_output, max_integral, 0⟩

/-- The unsaturated output of `PIDController::compute`
(src/src/pid_controller.cpp lines 13-25): `p_term = error`,
`i_term = (tau_I != 0) ? (1/tau_I) * integral_state : 0`,
`d_term = tau_D * error_dot`, giving `bias + Kc * (p_term + i_term + d_term)`.
It reads the pre-update `integral_state`. -/
def PIDController.outputUnsat (c : PIDController) (error error_dot : ℚ) : ℚ :=
  let p_term := error
  let i_term := if c.gains.tau_I ≠ 0 then 1 / c.gains.tau_I * c.integral_state else 0
  let d_term := c.gains.tau_D * error_dot
  c.bias + c.gains.Kc * (p_term + i_term + d_term)

/-- `PIDController::compute` (src/src/pid_controller.cpp lines 11-39):
clamps the unsaturated output to `[min_output, max_output]`; when the
unsaturated value equals the clamped one (no saturation), the integral state is
advanced by `error * dt` and then clamped to `[-max_integral, max_integral]`.
Returns the output together with the updated controller. -/
def PIDController.compute (c : PIDController) (error error_dot dt : ℚ) :
    ℚ × PIDController :=
  let output_unsat := c.outputUnsat error error_dot
  let output := stdClamp output_unsat c.min_output c.max_output
  if output_unsat = output then
    let next_integral := stdClamp (c.integral_state + error * dt) (-c.max_integral) c.max_integral
    (output, { c with integral_state := next_integral })
  else
    (output, c)

/-- `PIDController::setGains` (src/src/pid_controller.cpp lines 41-43). -/
def PIDController.setGains (c : PIDController) (gains : Gains) : PIDController :=
  { c with gains := gains }

/-- `PIDController::setOutputLimits` (src/src/pid_controller.cpp lines 45-48). -/
def PIDController.setOutputLimits (c : PIDController) (min_val max_val : ℚ) : PIDController :=
  { c with min_output := min_val, max_output := max_val }

/-- `PIDController::reset` (src/src/pid_controller.cpp lines 50-52). -/
def PIDController.reset (c : PIDController) : PIDController :=
  { c with integral_state := 0 }

/-- `PIDController::getIntegralState` (src/src/pid_controller.cpp lines 54-56). -/
def PIDController.getIntegralState (c : PIDController) : ℚ :=
  c.integral_state

/-- An operation on a `PIDController` drawn from the claim's interleavings:
either a `compute(error, error_dot, dt)` call or a `reset()` call. -/
inductive PIDOp where
  | compute (error error_dot dt : ℚ)
  | reset
deriving DecidableEq, Repr

/-- Run a finite sequence of `compute`/`reset` calls on a controller,
keeping only the resulting controller state. -/
def PIDController.run (c : PIDController) : List PIDOp → PIDController
  | [] => c
  | PIDOp.compute e ed dt :: ops => ((c.compute e ed dt).2).run ops
  | PIDOp.reset :: ops => c.reset.run ops

/-- `tank_sim::constants::TANK_STATE_SIZE` (src/src/constants.h line 33). -/
def TANK_STATE_SIZE : ℕ := 1

/-- `tank_sim::constants::TANK_INPUT_SIZE` (src/src/constants.h line 42). -/
def TANK_INPUT_SIZE : ℕ := 2

/-- `tank_sim::constants::MIN_DT` (src/src/constants.h line 111). -/
def MIN_DT : ℚ := 1 / 1000

/-- `tank_sim::constants::MAX_DT` (src/src/constants.h line 121). -/
def MAX_DT : ℚ := 10

/-- `tank_sim::TankModel::Parameters` (declared in tank_model.h, used by
`Simulator::Config` in src/src/simulator.h). -/
structure TankParameters where
  area : ℚ
  k_v : ℚ
  max_height : ℚ
deriving DecidableEq, Repr

/-- `Simulator::ControllerConfig` (src/src/simulator.h lines 14-23). -/
structure ControllerConfig where
  gains : Gains
  bias : ℚ
  minOutputLimit : ℚ
  maxOutputLimit : ℚ
  maxIntegralAccumulation : ℚ
  measuredIndex : ℤ
  outputIndex : ℤ
  initialSetpoint : ℚ
deriving DecidableEq, Repr

/-- `Simulator::Config` (src/src/simulator.h lines 25-31). -/
structure SimConfig where
  params : TankParameters
  controllerConfig : List ControllerConfig
  initialState : List ℚ
  initialInputs : List ℚ
  dt : ℚ
deriving DecidableEq, Repr

/-- The fields of `tank_sim::Simulator` (src/src/simulator.h lines 54-66).
The `Stepper` member holds no data relevant to the embedded operations beyond
the dimensions it was constructed with, which equal the lengths of
`initialState` and `initialInputs`. -/
structure Simulator where
  params : TankParameters
  time : ℚ
  state : List ℚ
  inputs : List ℚ
  initialState : List ℚ
  initialInputs : List ℚ
  dt : ℚ
  setpoints : List ℚ
  controllers : List PIDController
  controllerConfig : List ControllerConfig
deriving DecidableEq, Repr

/-- Validation 3 of the `Simulator` constructor: the per-controller bounds
checks on `measuredIndex` (against the state vector size) and `outputIndex`
(against the input vector size), throwing at the first offending controller. -/
def checkBindings (stateSize inputSize : ℕ) : List ControllerConfig → Except String Unit
  | [] => Except.ok ()
  | ctrl :: rest =>
    if ctrl.measuredIndex < 0 ∨ (stateSize : ℤ) ≤ ctrl.measuredIndex then
      Except.error "measured_index is out of bounds for state vector"
    else if ctrl.outputIndex < 0 ∨ (inputSize : ℤ) ≤ ctrl.outputIndex then
      Except.error "output_index is out of bounds for input vector"
    else
      checkBindings stateSize inputSize rest

/-- `Simulator::Simulator` (the simulator implementation file, constructor):
the member-initialiser list first constructs the `Stepper` with the state and
input vector sizes (which per stepper.h throws `std::invalid_argument` when a
dimension is zero), then the body runs Validation 1 (state size equals
`TANK_STATE_SIZE`), Validation 2 (input size equals `TANK_INPUT_SIZE`),
the `dt` range check (`dt <= 0.0 || dt < MIN_DT || dt > MAX_DT`),
Validation 3 (controller index bounds), Validation 4 (controller
construction, which may reject invalid gains/limits) and Validation 5
(setpoints copied from the configuration). -/
def Simulator.make (config : SimConfig) : Except String Simulator :=
  if config.initialState.length = 0 ∨ config.initialInputs.length = 0 then
    Except.error "Stepper dimensions must be greater than zero"
  else if config.initialState.length ≠ TANK_STATE_SIZE then
    Except.error "Initial state size does not match TankModel expectation"
  else if config.initialInputs.length ≠ TANK_INPUT_SIZE then
    Except.error "Initial inputs size does not match TankModel expectation"
  else if config.dt ≤ 0 ∨ config.dt < MIN_DT ∨ config.dt > MAX_DT then
    Except.error "dt must be positive and between MIN_DT and MAX_DT seconds"
  else do
    checkBindings config.initialState.length config.initialInputs.length config.controllerConfig
    let controllers ← config.controllerConfig.mapM (fun ctrl =>
      PIDController.make ctrl.gains ctrl.bias ctrl.minOutputLimit
        ctrl.maxOutputLimit ctrl.maxIntegralAccumulation)
    Except.ok
      { params := config.params
        time := 0
        state := config.initialState
        inputs := config.initialInputs
        initialState := config.initialState
        initialInputs := config.initialInputs
        dt := config.dt
        setpoints := config.controllerConfig.map ControllerConfig.initialSetpoint
        controllers := controllers
        controllerConfig := config.controllerConfig }

/-- `Simulator::step` as it appears in the source: the body is the placeholder
comment `// step implementation` and performs no state update at all. -/
def Simulator.step (s : Simulator) : Simulator :=
  s

/-- `Simulator::getTime` as it appears in the source: the body is the
placeholder `// getTime implementation` followed by `return 0.0;`. -/
def Simulator.getTime (_s : Simulator) : ℚ :=
  0

/-- `Simulator::getState` as it appears in the source: the body is the
placeholder `// getState implementation` followed by
`return Eigen::VectorXd();`, the empty vector. -/
def Simulator.getState (_s : Simulator) : List ℚ :=
  []

/-- Iterate `Simulator::step` `n` times. -/
def Simulator.stepN (s : Simulator) : ℕ → Simulator
  | 0 => s
  | n + 1 => (s.step).stepN n

/-- A well-formed configuration: nominal tank parameters, no controllers,
state `[2.5]`, inputs `[1.0, 0.5]`, `dt = 0.1` — all five construction
validations pass. -/
def stubConfig : SimConfig :=
  ⟨⟨120, 12649 / 10000, 5⟩, [], [5 / 2], [1, 1 / 2], 1 / 10⟩

/-- The simulator produced by `Simulator.make stubConfig`. -/
def stubSim : Simulator :=
  ⟨⟨120, 12649 / 10000, 5⟩, 0, [5 / 2], [1, 1 / 2], [5 / 2], [1, 1 / 2], 1 / 10, [], [], []⟩

/-- A configuration identical to `stubConfig` except `dt = 0`, violating
`0 < dt` and `MIN_DT ≤ dt`. -/
def badDtConfig : SimConfig :=
  ⟨⟨120, 12649 / 10000, 5⟩, [], [5 / 2], [1, 1 / 2], 0⟩

/-- Helper: `stdClamp x (-mi) mi` has absolute value at most `mi` when
`0 ≤ mi`. -/
theorem abs_stdClamp_le (x mi : ℚ) (h : 0 ≤ mi) : |stdClamp x (-mi) mi| ≤ mi := by
  unfold stdClamp
  split_ifs with h1 h2
  · rw [abs_neg, abs_of_nonneg h]
  · rw [abs_of_nonneg h]
  · rw [abs_le]
    exact ⟨by linarith, by linarith⟩

/-- Helper: `compute` never changes `max_integral`. -/
theorem compute_max_integral (c : PIDController) (e ed dt : ℚ) :
    ((c.compute e ed dt).2).max_integral = c.max_integral := by
  unfold PIDController.compute
  dsimp only
  split <;> rfl

/-- Helper: `compute` keeps the integral state within `[-max_integral,
max_integral]` whenever it was there and `max_integral` is nonnegative. -/
theorem compute_integral_bound (c : PIDController) (e ed dt : ℚ)
    (h0 : 0 ≤ c.max_integral) (h : |c.integral_state| ≤ c.max_integral) :
    |((c.compute e ed dt).2).integral_state| ≤ c.max_integral := by
  unfold PIDController.compute
  dsimp only
  split
  · exact abs_stdClamp_le _ _ h0
  · exact h

/-- Helper: `run` never changes `max_integral`. -/
theorem run_max_integral (ops : List PIDOp) (c : PIDController) :
    (c.run ops).max_integral = c.max_integral := by
  induction ops generalizing c with
  | nil => rfl
  | cons op ops ih =>
    cases op with
    | compute e ed dt =>
      rw [PIDController.run, ih, compute_max_integral]
    | reset =>
      rw [PIDController.run, ih]
      rfl

/-- Helper: `run` preserves the integral-state bound. -/
theorem run_integral_bound (ops : List PIDOp) (c : PIDController)
    (h0 : 0 ≤ c.max_integral) (h : |c.integral_state| ≤ c.max_integral) :
    |(c.run ops).integral_state| ≤ c.max_integral := by
  induction ops generalizing c with
  | nil => exact h
  | cons op ops ih =>
    cases op with
    | compute e ed dt =>
      rw [PIDController.run]
      have hmi := compute_max_integral c e ed dt
      have := ih ((c.compute e ed dt).2) (hmi ▸ h0)
        (hmi ▸ compute_integral_bound c e ed dt h0 h)
      rwa [hmi] at this
    | reset =>
      rw [PIDController.run]
      exact ih c.reset h0 (by simpa [PIDController.reset] using h0)

/-- **C1.** `PIDController::compute(error, error_dot, dt)` returns the clamp of
the unsaturated output formed from the pre-update integral accumulator, and
advances the accumulator by `error * dt` exactly when the unsaturated value
equals its clamp to `[min_output, max_output]`; when it does, the updated
accumulator is additionally clamped to `[-max_integral, max_integral]`,
otherwise the accumulator is left unchanged. -/
theorem pid_compute_anti_windup (c : PIDController) (e ed dt : ℚ) :
    (c.compute e ed dt).1 = stdClamp (c.outputUnsat e ed) c.min_output c.max_output ∧
    ((c.compute e ed dt).2).integral_state =
      (if c.outputUnsat e ed = stdClamp (c.outputUnsat e ed) c.min_output c.max_output then
        stdClamp (c.integral_state + e * dt) (-c.max_integral) c.max_integral
      else c.integral_state) := by
  unfold PIDController.compute
  dsimp only
  split_ifs with h <;> exact ⟨rfl, rfl⟩

/-- **C6.** With `tau_I = 0` and `tau_D = 0`, `compute(e, ·, ·)` returns
`clamp(bias + Kc * e, min_output, max_output)` for every error `e`, error
derivative and time step. -/
theorem pid_proportional_only (c : PIDController) (e ed dt : ℚ)
    (hI : c.gains.tau_I = 0) (hD : c.gains.tau_D = 0) :
    (c.compute e ed dt).1 = stdClamp (c.bias + c.gains.Kc * e) c.min_output c.max_output := by
  have hu : c.outputUnsat e ed = c.bias + c.gains.Kc * e := by
    unfold PIDController.outputUnsat
    dsimp only
    rw [hI, hD]
    norm_num
  unfold PIDController.compute
  dsimp only
  rw [hu]
  split_ifs <;> rfl

/-- Witness for C6 at Scenario A of the spec: gains `{Kc=1, tau_I=0, tau_D=0}`,
bias `0.5`, limits `[0, 1]`, error `0.1` gives output `0.6`. -/
theorem pid_proportional_only_witness :
    ((⟨⟨1, 0, 0⟩, 1 / 2, 0, 1, 10, 0⟩ : PIDController).compute (1 / 10) 0 1).1 = 3 / 5 := by
  have h := pid_proportional_only ⟨⟨1, 0, 0⟩, 1 / 2, 0, 1, 10, 0⟩ (1 / 10) 0 1 rfl rfl
  rw [h]
  norm_num [stdClamp]

/-- **C8.** `setGains` changes only the gains field; `setOutputLimits` changes
only the two output limits; in particular neither touches the integral
accumulator, the bias or `max_integral`, and `setOutputLimits` performs no
re-clamp of the accumulator at call time. -/
theorem pid_setters_frame (c : PIDController) (g : Gains) (lo hi : ℚ) :
    (c.setGains g).gains = g ∧
    (c.setGains g).integral_state = c.integral_state ∧
    (c.setGains g).bias = c.bias ∧
    (c.setGains g).min_output = c.min_output ∧
    (c.setGains g).max_output = c.max_output ∧
    (c.setGains g).max_integral = c.max_integral ∧
    (c.setOutputLimits lo hi).min_output = lo ∧
    (c.setOutputLimits lo hi).max_output = hi ∧
    (c.setOutputLimits lo hi).integral_state = c.integral_state ∧
    (c.setOutputLimits lo hi).gains = c.gains ∧
    (c.setOutputLimits lo hi).bias = c.bias ∧
    (c.setOutputLimits lo hi).max_integral = c.max_integral :=
  ⟨rfl, rfl, rfl, rfl, rfl, rfl, rfl, rfl, rfl, rfl, rfl, rfl⟩

/-- **C9.** Even with `tau_I = 0` (the accumulator is never read when forming
the output), an unsaturated `compute(error, error_dot, dt)` call still advances
the integral accumulator by `error * dt` (followed by the hard clamp to
`[-max_integral, max_integral]`), observable through `getIntegralState`. -/
theorem pid_integral_accumulates_without_integral_action (c : PIDController) (e ed dt : ℚ)
    (_hI : c.gains.tau_I = 0)
    (hunsat : c.outputUnsat e ed = stdClamp (c.outputUnsat e ed) c.min_output c.max_output) :
    ((c.compute e ed dt).2).getIntegralState =
      stdClamp (c.getIntegralState + e * dt) (-c.max_integral) c.max_integral := by
  unfold PIDController.compute PIDController.getIntegralState
  dsimp only
  rw [if_pos hunsat]

/-- Witness for C9: with `tau_I = 0`, limits `[0, 1]` and `maxIntegral = 10`,
the unsaturated call `compute(0.1, 0, 1)` moves the accumulator from `0`
to `0.1`. -/
theorem pid_integral_accumulates_without_integral_action_witness :
    (((⟨⟨1, 0, 0⟩, 1 / 2, 0, 1, 10, 0⟩ : PIDController).compute (1 / 10) 0 1).2).getIntegralState
      = 1 / 10 := by
  have h := pid_integral_accumulates_without_integral_action
    ⟨⟨1, 0, 0⟩, 1 / 2, 0, 1, 10, 0⟩ (1 / 10) 0 1 rfl
    (by norm_num [PIDController.outputUnsat, stdClamp])
  rw [h]
  norm_num [stdClamp, PIDController.getIntegralState]

/-- **C10.** `setOutputLimits(min_val, max_val)` never fails and stores both
arguments unconditionally, including when `min_val > max_val`; in particular
the `min_output ≤ max_output` relation established by the constructor is not
preserved by this operation (shown at the pair `(max_output, max_output - 1)`),
and the integral accumulator is not re-clamped. -/
theorem pid_set_output_limits_unconditional (c : PIDController) (min_val max_val : ℚ) :
    (c.setOutputLimits min_val max_val).min_output = min_val ∧
    (c.setOutputLimits min_val max_val).max_output = max_val ∧
    (c.setOutputLimits min_val max_val).integral_state = c.integral_state ∧
    (c.setOutputLimits c.max_output (c.max_output - 1)).min_output >
      (c.setOutputLimits c.max_output (c.max_output - 1)).max_output := by
  refine ⟨rfl, rfl, rfl, ?_⟩
  show c.max_output > c.max_output - 1
  linarith

/-- **C2.** The validating `PIDController` constructor signals an
invalid-argument failure whenever `tau_I < 0`, `tau_D < 0`,
`min_output > max_output` or `max_integral < 0`; for arguments satisfying all
four conditions it constructs normally with integral accumulator `0`. -/
theorem pid_constructor_validation (g : Gains) (b lo hi mi : ℚ) :
    ((g.tau_I < 0 ∨ g.tau_D < 0 ∨ lo > hi ∨ mi < 0) →
      ∃ msg, PIDController.make g b lo hi mi = Except.error msg) ∧
    (0 ≤ g.tau_I → 0 ≤ g.tau_D → lo ≤ hi → 0 ≤ mi →
      PIDController.make g b lo hi mi = Except.ok ⟨g, b, lo, hi, mi, 0⟩) := by
  unfold PIDController.make
  constructor
  · intro h
    split_ifs with h1 h2 h3 h4
    · exact ⟨_, rfl⟩
    · exact ⟨_, rfl⟩
    · exact ⟨_, rfl⟩
    · exact ⟨_, rfl⟩
    · rcases h with h | h | h | h
      · exact absurd h h1
      · exact absurd h h2
      · exact absurd h h3
      · exact absurd h h4
  · intro hI hD hlh hmi
    split_ifs with h1 h2 h3 h4
    · exact absurd h1 (not_lt.mpr hI)
    · exact absurd h2 (not_lt.mpr hD)
    · exact absurd h3 (not_lt.mpr hlh)
    · exact absurd h4 (not_lt.mpr hmi)
    · rfl

/-- Witness for C2: `tau_I = -1` is rejected, while the Scenario-B parameters
(`Kc=1, tau_I=10, tau_D=0`, bias `0.5`, limits `[0,1]`, `max_integral=10`)
construct normally with zero accumulator. -/
theorem pid_constructor_validation_witness :
    (∃ msg, PIDController.make ⟨1, -1, 0⟩ (1 / 2) 0 1 10 = Except.error msg) ∧
    PIDController.make ⟨1, 10, 0⟩ (1 / 2) 0 1 10 =
      Except.ok ⟨⟨1, 10, 0⟩, 1 / 2, 0, 1, 10, 0⟩ := by
  constructor
  · exact (pid_constructor_validation ⟨1, -1, 0⟩ (1 / 2) 0 1 10).1 (Or.inl (by norm_num))
  · exact (pid_constructor_validation ⟨1, 10, 0⟩ (1 / 2) 0 1 10).2
      (by norm_num) (by norm_num) (by norm_num) (by norm_num)

/-- **C3.** For every controller accepted by the validating constructor (whose
`max_integral` is therefore nonnegative) and every finite sequence of
`compute(error, error_dot, dt)` calls interleaved with `reset()` calls, the
integral accumulator satisfies `|integral| ≤ max_integral` after every
operation: it starts at `0` and every update is clamped or skipped. -/
theorem pid_integral_invariant (g : Gains) (b lo hi mi : ℚ) (c : PIDController)
    (hmk : PIDController.make g b lo hi mi = Except.ok c) (ops : List PIDOp) :
    |(c.run ops).getIntegralState| ≤ mi := by
  unfold PIDController.make at hmk
  split_ifs at hmk with h1 h2 h3 h4 <;> cases hmk
  have h0 : (0 : ℚ) ≤ mi := not_lt.mp h4
  have hb := run_integral_bound ops ⟨g, b, lo, hi, mi, 0⟩ h0 (by simpa using h0)
  exact hb

/-- Witness for C3: gains `{Kc=2, tau_I=1, tau_D=0}`, bias `0.5`, limits
`[0, 1]`, `max_integral = 1.5`, and the sequence
`compute(0.1,0,1); reset(); compute(100,0,1)` keep the accumulator within
`[-1.5, 1.5]`. -/
theorem pid_integral_invariant_witness :
    |((⟨⟨2, 1, 0⟩, 1 / 2, 0, 1, 3 / 2, 0⟩ : PIDController).run
        [PIDOp.compute (1 / 10) 0 1, PIDOp.reset, PIDOp.compute 100 0 1]).getIntegralState|
      ≤ 3 / 2 :=
  pid_integral_invariant ⟨2, 1, 0⟩ (1 / 2) 0 1 (3 / 2) ⟨⟨2, 1, 0⟩, 1 / 2, 0, 1, 3 / 2, 0⟩
    (by norm_num [PIDController.make])
    [PIDOp.compute (1 / 10) 0 1, PIDOp.reset, PIDOp.compute 100 0 1]

/-- **C7.** `reset()` followed by `compute(e, 0, dt)` returns the same output
and leaves the same controller state as the same call on a freshly constructed
controller with identical gains, bias, output limits and `max_integral`. -/
theorem pid_reset_matches_fresh (g : Gains) (b lo hi mi : ℚ) (fresh c : PIDController)
    (hmk : PIDController.make g b lo hi mi = Except.ok fresh)
    (hg : c.gains = g) (hb : c.bias = b) (hlo : c.min_output = lo)
    (hhi : c.max_output = hi) (hmi : c.max_integral = mi) (e dt : ℚ) :
    (c.reset).compute e 0 dt = fresh.compute e 0 dt := by
  unfold PIDController.make at hmk
  split_ifs at hmk <;> cases hmk
  obtain ⟨cg, cb, clo, chi, cmi, ci⟩ := c
  obtain rfl : cg = g := hg
  obtain rfl : cb = b := hb
  obtain rfl : clo = lo := hlo
  obtain rfl : chi = hi := hhi
  obtain rfl : cmi = mi := hmi
  rfl

/-- Witness for C7: a controller with accumulated integral `7` behaves after
`reset()` on `compute(0.1, 0, 1)` exactly like a freshly constructed
Scenario-B controller. -/
theorem pid_reset_matches_fresh_witness :
    ((⟨⟨1, 10, 0⟩, 1 / 2, 0, 1, 10, 7⟩ : PIDController).reset).compute (1 / 10) 0 1 =
      (⟨⟨1, 10, 0⟩, 1 / 2, 0, 1, 10, 0⟩ : PIDController).compute (1 / 10) 0 1 :=
  pid_reset_matches_fresh ⟨1, 10, 0⟩ (1 / 2) 0 1 10 ⟨⟨1, 10, 0⟩, 1 / 2, 0, 1, 10, 0⟩
    ⟨⟨1, 10, 0⟩, 1 / 2, 0, 1, 10, 7⟩ (by norm_num [PIDController.make])
    rfl rfl rfl rfl rfl (1 / 10) 1

/-- Helper: Validation 3 fails whenever some controller configuration in the
list carries an out-of-range `measuredIndex` or `outputIndex`. -/
theorem checkBindings_error (stateSize inputSize : ℕ) (l : List ControllerConfig)
    (h : ∃ ctrl ∈ l,
        (ctrl.measuredIndex < 0 ∨ (stateSize : ℤ) ≤ ctrl.measuredIndex) ∨
        (ctrl.outputIndex < 0 ∨ (inputSize : ℤ) ≤ ctrl.outputIndex)) :
    ∃ msg, checkBindings stateSize inputSize l = Except.error msg := by
  induction l with
  | nil => simp at h
  | cons hd tl ih =>
    unfold checkBindings
    split_ifs with hm ho
    · exact ⟨_, rfl⟩
    · exact ⟨_, rfl⟩
    · obtain ⟨ctrl, hmem, hbad⟩ := h
      rcases List.mem_cons.mp hmem with rfl | hmem'
      · rcases hbad with hbad | hbad
        · exact absurd hbad hm
        · exact absurd hbad ho
      · exact ih ⟨ctrl, hmem', hbad⟩

/-- **C5.** The `Simulator` constructor raises an invalid-argument error, and
no simulator is produced, whenever the initial state length differs from the
model's state dimension (`TANK_STATE_SIZE = 1`), the initial input length
differs from `TANK_INPUT_SIZE = 2`, `dt` violates
`0 < dt ∧ MIN_DT ≤ dt ∧ dt ≤ MAX_DT`, some controller's `measuredIndex` is not
a valid index into the state vector, or some controller's `outputIndex` is not
a valid index into the input vector; no invalid configuration is clamped or
ignored. -/
theorem simulator_construction_rejects (cfg : SimConfig)
    (h : cfg.initialState.length ≠ TANK_STATE_SIZE ∨
         cfg.initialInputs.length ≠ TANK_INPUT_SIZE ∨
         ¬(0 < cfg.dt ∧ MIN_DT ≤ cfg.dt ∧ cfg.dt ≤ MAX_DT) ∨
         (∃ ctrl ∈ cfg.controllerConfig,
            ctrl.measuredIndex < 0 ∨ (cfg.initialState.length : ℤ) ≤ ctrl.measuredIndex) ∨
         (∃ ctrl ∈ cfg.controllerConfig,
            ctrl.outputIndex < 0 ∨ (cfg.initialInputs.length : ℤ) ≤ ctrl.outputIndex)) :
    ∃ msg, Simulator.make cfg = Except.error msg := by
  unfold Simulator.make
  split_ifs with h1 h2 h3 h4
  · exact ⟨_, rfl⟩
  · exact ⟨_, rfl⟩
  · exact ⟨_, rfl⟩
  · exact ⟨_, rfl⟩
  · rcases h with h | h | h | h | h
    · exact absurd h h2
    · exact absurd h h3
    · push_neg at h4
      exact absurd h4 h
    · obtain ⟨ctrl, hmem, hbad⟩ := h
      obtain ⟨msg, hcb⟩ := checkBindings_error cfg.initialState.length cfg.initialInputs.length
        cfg.controllerConfig ⟨ctrl, hmem, Or.inl hbad⟩
      exact ⟨msg, by rw [hcb]; rfl⟩
    · obtain ⟨ctrl, hmem, hbad⟩ := h
      obtain ⟨msg, hcb⟩ := checkBindings_error cfg.initialState.length cfg.initialInputs.length
        cfg.controllerConfig ⟨ctrl, hmem, Or.inr hbad⟩
      exact ⟨msg, by rw [hcb]; rfl⟩

/-- Witness for C5: the configuration `badDtConfig` with `dt = 0` violates the
`dt` constraint and is rejected by the constructor. -/
theorem simulator_construction_rejects_witness :
    (¬(0 < badDtConfig.dt ∧ MIN_DT ≤ badDtConfig.dt ∧ badDtConfig.dt ≤ MAX_DT)) ∧
    ∃ msg, Simulator.make badDtConfig = Except.error msg := by
  have hdt : ¬(0 < badDtConfig.dt ∧ MIN_DT ≤ badDtConfig.dt ∧ badDtConfig.dt ≤ MAX_DT) := by
    norm_num [badDtConfig, MIN_DT, MAX_DT]
  exact ⟨hdt, simulator_construction_rejects badDtConfig (Or.inr (Or.inr (Or.inl hdt)))⟩

/-- **C4 (code-bug evidence).** On a validly constructed simulator the source's
`Simulator::step` body is an empty placeholder and `getTime`/`getState` are
placeholder bodies returning `0.0` and the empty vector: after one `step()`
call, `getTime` yields `0` while the initial time advanced by `1 * dt` is
`0.1 ≠ 0`, and `getState` yields `[]` while the state vector held by the
simulator is `[2.5]`. -/
theorem simulator_step_getters_stubbed :
    Simulator.make stubConfig = Except.ok stubSim ∧
    (stubSim.stepN 1).getTime = 0 ∧
    stubSim.time + 1 * stubSim.dt = 1 / 10 ∧
    (0 : ℚ) ≠ 1 / 10 ∧
    (stubSim.stepN 1).getState = [] ∧
    stubSim.state = [5 / 2] ∧
    ([] : List ℚ) ≠ [5 / 2] := by
  refine ⟨?_, rfl, ?_, by norm_num, rfl, rfl, by simp⟩
  · norm_num [Simulator.make, checkBindings, stubConfig, stubSim, TANK_STATE_SIZE,
      TANK_INPUT_SIZE, MIN_DT, MAX_DT, List.mapM, List.mapM.loop, bind, Except.bind,
      pure, Except.pure]
  · norm_num [stubSim]

end TankSim
